import Mathlib

/-!
Shallow embedding of `src/cicd/cli.py` (the Tyranno command-line surface):
the `Messenger` presentation helper, the `set_cli_state` logging-level
selector, the `_Opts` flag bundle, and the three commands `new`, `sync`,
`clean` registered on the typer application.

Conventions of the embedding:
* Python ints are `Int` (verbosity counts, being occurrence counts, are `Nat`
  at the CLI boundary); Python `False` used where an int is expected denotes
  the integer 0.
* The loguru logger's process-wide sink set is a `List Sink` threaded
  explicitly; `logger.remove()` clears it, `logger.add(sys.stderr, level)`
  appends one sink.
* `typer.echo` emits one line on standard output; `typer.style` records the
  requested foreground color and bold flag on the text. Console output of a
  run is the list of emitted lines in order.
* External collaborators are kept at their call boundary:
  `DefaultContextFactory()(root, dry_run=..., global_vars=...)` is recorded as
  the argument pair it receives; the `Cleaner(context).run()` iterable is a
  parameter of `clean`.
* Fallible steps (Python list indexing, which can raise `IndexError`) return
  `Option`; a command run is `Option CmdResult`.
-/

namespace Cicd

/-- Console streams visible to this module: `typer.echo` targets stdout,
`logger.add(sys.stderr, ...)` targets stderr. -/
inductive ConsoleStream where
  | stdout
  | stderr
deriving DecidableEq, Repr

/-- A loguru sink as configured here: a destination stream and a minimum
severity name. -/
structure Sink where
  stream : ConsoleStream
  level : String
deriving DecidableEq, Repr

/-- `logger.remove()` with no arguments: removes every previously added sink. -/
def loggerRemove (_sinks : List Sink) : List Sink := []

/-- `logger.add(stream, level=level)`: installs one additional sink. -/
def loggerAdd (sink : Sink) (sinks : List Sink) : List Sink := sinks ++ [sink]

/-- The severity scale of `set_cli_state`:
`["TRACE", "DEBUG", "INFO", "SUCCESS", "WARNING", "ERROR", "FATAL"]`. -/
def levels : List String :=
  ["TRACE", "DEBUG", "INFO", "SUCCESS", "WARNING", "ERROR", "FATAL"]

/-- Python list indexing `xs[i]` on an `int` index: a negative index counts
from the end; an index out of range raises `IndexError` (here `none`). -/
def pyListGet (xs : List String) (i : Int) : Option String :=
  let j : Int := if i < 0 then (xs.length : Int) + i else i
  if j < 0 then none else xs.get? j.toNat

/-- The raw severity index of `set_cli_state`: `3 + quiet - verbose`. -/
def rawIdx (verbose quiet : Nat) : Int :=
  3 + (quiet : Int) - (verbose : Int)

/-- The clamp expression exactly as written in the source:
`max(6, min(0, 3 + quiet - verbose))`. -/
def clampedIdx (verbose quiet : Nat) : Int :=
  max 6 (min 0 (rawIdx verbose quiet))

/-- `set_cli_state(verbose, quiet)`: pick `levels[max(6, min(0, 3+quiet-verbose))]`,
remove every existing sink, then add one stderr sink at that level. The
result is the new process-wide sink list. -/
def set_cli_state (verbose quiet : Nat) (sinks : List Sink) :
    Option (List Sink) :=
  match pyListGet levels (clampedIdx verbose quiet) with
  | none => none
  | some level => some (loggerAdd ⟨ConsoleStream.stderr, level⟩ (loggerRemove sinks))

/-- Helper: the clamp as written always evaluates to the upper bound 6. -/
theorem clampedIdx_eq_six (verbose quiet : Nat) : clampedIdx verbose quiet = 6 := by
  unfold clampedIdx
  exact max_eq_left (le_trans (min_le_left 0 (rawIdx verbose quiet)) (by norm_num))

/-- Helper: `set_cli_state` always succeeds and always leaves exactly the
single sink `(stderr, "FATAL")`, whatever the previous sink list was. -/
theorem set_cli_state_eq (verbose quiet : Nat) (sinks : List Sink) :
    set_cli_state verbose quiet sinks = some [⟨ConsoleStream.stderr, "FATAL"⟩] := by
  unfold set_cli_state
  rw [clampedIdx_eq_six]
  rfl

/-- C1: for all non-negative `verbose` and `quiet`, the raw severity index is
`3 + quiet - verbose`, the clamp applied to it is `max(6, min(0, idx))`, and
therefore the selected index is always 6, whose level name is `FATAL`. -/
theorem set_cli_state_clamps_to_fatal (verbose quiet : Nat) :
    rawIdx verbose quiet = 3 + (quiet : Int) - (verbose : Int) ∧
    clampedIdx verbose quiet = max 6 (min 0 (rawIdx verbose quiet)) ∧
    clampedIdx verbose quiet = 6 ∧
    pyListGet levels (clampedIdx verbose quiet) = some "FATAL" := by
  refine ⟨rfl, rfl, clampedIdx_eq_six verbose quiet, ?_⟩
  rw [clampedIdx_eq_six]
  rfl

/-- C2: every call to `set_cli_state` leaves exactly one active console sink,
at the resolved severity and writing to standard error; in particular a
second call in succession, applied to the state the first call produced,
again leaves exactly that one sink. -/
theorem set_cli_state_single_sink (v q v2 q2 : Nat) (sinks : List Sink) :
    set_cli_state v q sinks = some [⟨ConsoleStream.stderr, "FATAL"⟩] ∧
    set_cli_state v2 q2 [⟨ConsoleStream.stderr, "FATAL"⟩] =
      some [⟨ConsoleStream.stderr, "FATAL"⟩] ∧
    ([(⟨ConsoleStream.stderr, "FATAL"⟩ : Sink)]).length = 1 :=
  ⟨set_cli_state_eq v q sinks, set_cli_state_eq v2 q2 _, rfl⟩

/-- `typer.colors.GREEN`. -/
def typerColorsGreen : String := "green"

/-- `typer.colors.RED`. -/
def typerColorsRed : String := "red"

/-- A console line as emitted by `typer.echo(typer.style(...))` or
`typer.echo(msg)`: the destination stream, the text, and the styling that
`typer.style` attached (`fg` color, `bold`); a plain `typer.echo(msg)` call
carries no styling. -/
structure Line where
  stream : ConsoleStream
  text : String
  fg : Option String
  bold : Bool
deriving DecidableEq, Repr

/-- `typer.echo(typer.style(msg, fg=fg, bold=true))`: one styled line on
standard output. -/
def echoStyled (msg : String) (fg : String) : List Line :=
  [⟨ConsoleStream.stdout, msg, some fg, true⟩]

/-- `typer.echo(msg)`: one unstyled line on standard output. -/
def echoPlain (msg : String) : List Line :=
  [⟨ConsoleStream.stdout, msg, none, false⟩]

/-- The frozen `Messenger` dataclass: two color fields with defaults
`typer.colors.GREEN` and `typer.colors.RED`. -/
structure Messenger where
  success_color : String
  error_color : String
deriving DecidableEq, Repr

/-- `Messenger.success`: echo the message styled bold in the success color. -/
def Messenger.success (m : Messenger) (msg : String) : List Line :=
  echoStyled msg m.success_color

/-- `Messenger.info`: echo the message with no styling. -/
def Messenger.info (_m : Messenger) (msg : String) : List Line :=
  echoPlain msg

/-- `Messenger.failure`: echo the message styled bold in the error color. -/
def Messenger.failure (m : Messenger) (msg : String) : List Line :=
  echoStyled msg m.error_color

/-- The module-level `messenger = Messenger()` instance, taking both field
defaults. -/
def messenger : Messenger := ⟨typerColorsGreen, typerColorsRed⟩

/-- The argument pair handed to `DefaultContextFactory()(...)`: the root path
and the dry-run flag (the third argument is the module-wide `_GLOBAL_VARS`
singleton, identical on every call, so it is not recorded). -/
structure ContextArgs where
  root : String
  dry_run : Bool
deriving DecidableEq, Repr

/-- The observable outcome of one command invocation: console lines in order,
the final logger sink list, every argument pair passed to the context
factory, whether the command ended through the early `typer.Exit()` path,
how many times the `Sync` engine was entered, and the filesystem paths
mutated (removed) during the run. -/
structure CmdResult where
  console : List Line
  logger : List Sink
  contextCalls : List ContextArgs
  earlyExit : Bool
  syncCalls : Nat
  fsMutations : List String
deriving DecidableEq, Repr

/-- A Python f-string interpolation of an optional string: `None` renders as
the text `"None"`. -/
def pyStr : Option String → String
  | some s => s
  | none => "None"

/-- The documentation pointer emitted by `new`. -/
def guideMsg : String := "See https://dmyersturnbull.github.io/tyranno/guide.html"

/-- `CliCommands.new(path, name, license_id, dry_run, verbose, quiet)`.
`cwd` is the process working directory (`os.getcwd()`); `path` and `name`
are `Option`s so that the `path is None and name is None` guard is
expressible. On the early path the command raises `typer.Exit()` before
touching the logger or the context factory; otherwise it resolves the
logging level, builds a context from `Path(os.getcwd())` (not from `path`),
and emits an info line naming the project and a success line pointing at the
documentation. `license_id` is accepted but never read. -/
def new (cwd : String) (path : Option String) (name : Option String)
    (license_id : String) (dry_run : Bool) (verbose quiet : Nat)
    (sinks : List Sink) : Option CmdResult :=
  let _ := license_id
  if path.isNone && name.isNone then
    some ⟨[], sinks, [], true, 0, []⟩
  else
    match set_cli_state verbose quiet sinks with
    | none => none
    | some sinks2 =>
      some ⟨messenger.info ("Done! Created a new repository under " ++ pyStr name) ++
              messenger.success guideMsg,
            sinks2, [⟨cwd, dry_run⟩], false, 0, []⟩

/-- `CliCommands.sync(dry_run, verbose, quiet)`: resolve the logging level,
build a context from the working directory, emit the informational syncing
line. The `Sync(context).sync()` call is commented out in the source, so the
engine is never entered and nothing on the filesystem changes. -/
def sync (cwd : String) (dry_run : Bool) (verbose quiet : Nat)
    (sinks : List Sink) : Option CmdResult :=
  match set_cli_state verbose quiet sinks with
  | none => none
  | some sinks2 =>
    some ⟨messenger.info "Syncing metadata...", sinks2, [⟨cwd, dry_run⟩], false, 0, []⟩

/-- `CliCommands.clean(dry_run, verbose, quiet)`: resolve the logging level,
build a context, collect `Cleaner(context).run()` into a list (`cleanerRun`,
the external collaborator's iterable of removed paths), and report the count
with `f"Trashed {len(trashed)} paths."`. -/
def clean (cwd : String) (cleanerRun : List String) (dry_run : Bool)
    (verbose quiet : Nat) (sinks : List Sink) : Option CmdResult :=
  match set_cli_state verbose quiet sinks with
  | none => none
  | some sinks2 =>
    let trashed := cleanerRun
    some ⟨messenger.info ("Trashed " ++ toString trashed.length ++ " paths."),
          sinks2, [⟨cwd, dry_run⟩], false, 0, trashed⟩

/-- The `_Opts` flag bundle: declared defaults of the shared flags. -/
structure Opts where
  dry_run : Bool
  verbose : Nat
  quiet : Nat
deriving DecidableEq, Repr

/-- The `_Opts` class-level defaults: `dry_run = False`, `verbose = 0`,
`quiet = 0`. -/
def optsDefaults : Opts := ⟨false, 0, 0⟩

/-- Default of `new`'s `path` argument: `Path.cwd()`, the process working
directory captured at import. -/
def newDefaultPath (cwd : String) : Option String := some cwd

/-- Default of `new`'s `name` option. -/
def newDefaultName : Option String := some "my-project"

/-- Default of `new`'s `--license` option. -/
def newDefaultLicense : String := "Apache-2.0"

/-- Default of the `dry_run` flag in each command signature (`False`). -/
def newDefaultDryRun : Bool := false

/-- Default of the `verbose` count in each command signature: written `False`
in the source, which as an occurrence count is the integer 0. -/
def newDefaultVerbose : Nat := 0

/-- Default of the `quiet` count in each command signature: written `False`
in the source, which as an occurrence count is the integer 0. -/
def newDefaultQuiet : Nat := 0

/-- `pat` is a prefix of `s`, on character lists. -/
def isPrefixOfL : List Char → List Char → Bool
  | [], _ => true
  | _ :: _, [] => false
  | a :: as, b :: bs => a == b && isPrefixOfL as bs

/-- Python substring containment `pat in s`, on character lists: `pat` occurs
contiguously in `s`. -/
def containsSub (pat : List Char) : List Char → Bool
  | [] => isPrefixOfL pat []
  | s@(_ :: rest) => isPrefixOfL pat s || containsSub pat rest

/-- A message mentions `pat` when `pat` occurs in it as a contiguous
substring. -/
def mentions (pat msg : String) : Bool :=
  containsSub pat.data msg.data

/-- Helper: every character list is a prefix of itself. -/
theorem isPrefixOfL_self (l : List Char) : isPrefixOfL l l = true := by
  induction l with
  | nil => rfl
  | cons a as ih => simp [isPrefixOfL, ih]

/-- Helper: a list contains any of its suffixes as a substring. -/
theorem containsSub_append_self (pat : List Char) :
    ∀ pre : List Char, containsSub pat (pre ++ pat) = true := by
  intro pre
  induction pre with
  | nil =>
    cases pat with
    | nil => rfl
    | cons a as => simp [containsSub, isPrefixOfL_self]
  | cons b bs ih => simp [containsSub, ih]

/-- Helper: appending a string makes the result mention it. -/
theorem mentions_append_self (pre pat : String) :
    mentions pat (pre ++ pat) = true := by
  unfold mentions
  have h : (pre ++ pat).data = pre.data ++ pat.data := rfl
  rw [h]
  exact containsSub_append_self pat.data pre.data

/-- C3: for every sequence of removed paths returned by the cleaner
collaborator — length 0, 1, or more — `clean` prints exactly one
informational line reporting a count equal to the length of that sequence. -/
theorem clean_reports_trashed_count (cwd : String) (cleanerRun : List String)
    (dry_run : Bool) (v q : Nat) (sinks : List Sink) :
    (clean cwd cleanerRun dry_run v q sinks).map CmdResult.console =
      some [⟨ConsoleStream.stdout,
             "Trashed " ++ toString cleanerRun.length ++ " paths.", none, false⟩] := by
  unfold clean
  rw [set_cli_state_eq]
  rfl

/-- C5: every invocation of `sync` prints exactly the one unstyled line
`Syncing metadata...`, never enters the synchronization engine, and mutates
no filesystem path. -/
theorem sync_emits_only_literal_message (cwd : String) (dry_run : Bool)
    (v q : Nat) (sinks : List Sink) :
    (sync cwd dry_run v q sinks).map
        (fun r => (r.console, r.syncCalls, r.fsMutations)) =
      some ([⟨ConsoleStream.stdout, "Syncing metadata...", none, false⟩], 0, []) := by
  unfold sync
  rw [set_cli_state_eq]
  rfl

/-- C6: for every message, `success` writes exactly one bold green line to
standard output, `info` exactly one unstyled line to standard output,
`failure` exactly one bold red line to standard output, and none of the
three writes any line to standard error. -/
theorem messenger_writes_single_stdout_lines (msg : String) :
    messenger.success msg = [⟨ConsoleStream.stdout, msg, some "green", true⟩] ∧
    messenger.info msg = [⟨ConsoleStream.stdout, msg, none, false⟩] ∧
    messenger.failure msg = [⟨ConsoleStream.stdout, msg, some "red", true⟩] ∧
    (messenger.success msg ++ messenger.info msg ++ messenger.failure msg).filter
        (fun l => l.stream == ConsoleStream.stderr) = [] :=
  ⟨rfl, rfl, rfl, rfl⟩

/-- C8: the declared defaults — `path` the working directory, `name`
`my-project`, `license_id` `Apache-2.0`, `dry_run` false, `verbose` and
`quiet` 0 — both in the shared `_Opts` bundle and in `new`'s signature; the
no-flag invocation of `new` is exactly the invocation at these values. -/
theorem cli_declared_defaults (cwd : String) (sinks : List Sink) :
    newDefaultPath cwd = some cwd ∧
    newDefaultName = some "my-project" ∧
    newDefaultLicense = "Apache-2.0" ∧
    newDefaultDryRun = false ∧
    newDefaultVerbose = 0 ∧
    newDefaultQuiet = 0 ∧
    optsDefaults = ⟨false, 0, 0⟩ ∧
    new cwd (newDefaultPath cwd) newDefaultName newDefaultLicense newDefaultDryRun
        newDefaultVerbose newDefaultQuiet sinks =
      new cwd (some cwd) (some "my-project") "Apache-2.0" false 0 0 sinks :=
  ⟨rfl, rfl, rfl, rfl, rfl, rfl, rfl, rfl⟩

/-- C9: the observable behavior of `new` is independent of the (non-None)
`path` argument and of `license_id`: two invocations differing only in those
produce identical results — same console lines and same context-factory
arguments — because the context root is `os.getcwd()` and the messages use
only `name`. -/
theorem new_independent_of_path_and_license (cwd p1 p2 lic1 lic2 : String)
    (name : Option String) (dry_run : Bool) (v q : Nat) (sinks : List Sink) :
    new cwd (some p1) name lic1 dry_run v q sinks =
      new cwd (some p2) name lic2 dry_run v q sinks := rfl

/-- C10: under the declared interface the early-exit branch of `new` is
unreachable: with any non-None `path` (the default is the non-None working
directory, and every supplied value is non-None) the guard
`path is None and name is None` fails, so the context factory is invoked on
every such invocation. -/
theorem new_context_factory_always_invoked (cwd p license_id : String)
    (name : Option String) (dry_run : Bool) (v q : Nat) (sinks : List Sink) :
    (new cwd (some p) name license_id dry_run v q sinks).map
        (fun r => (r.earlyExit, r.contextCalls)) =
      some (false, [⟨cwd, dry_run⟩]) := by
  unfold new
  rw [set_cli_state_eq]
  rfl

/-- C4 (counterexample): invoking `new` with no arguments — `path` and `name`
at their declared defaults, which are non-None — does not take the early
exit: the run invokes the context factory once, resolves the logging level,
and prints two lines. -/
theorem new_defaults_do_not_early_exit :
    (new "/work" (newDefaultPath "/work") newDefaultName newDefaultLicense
        newDefaultDryRun newDefaultVerbose newDefaultQuiet []).map
        (fun r => (r.earlyExit, r.contextCalls, r.console.length, r.logger)) =
      some (false, [⟨"/work", false⟩], 2, [⟨ConsoleStream.stderr, "FATAL"⟩]) := rfl

/-- C4 (amended): `new` terminates through the early non-error exit — with no
context-factory call, no logging reconfiguration and no output — exactly
when `path` and `name` are both `None`; on every other invocation, including
the no-argument one whose defaults are non-None, it reconfigures logging,
calls the context factory once and prints two lines. -/
theorem new_early_exit_characterization (cwd license_id : String)
    (path name : Option String) (dry_run : Bool) (v q : Nat) (sinks : List Sink) :
    (new cwd path name license_id dry_run v q sinks).map
        (fun r => (r.earlyExit, r.contextCalls, r.console.length, r.logger)) =
      some (if path.isNone && name.isNone then (true, [], 0, sinks)
            else (false, [⟨cwd, dry_run⟩], 2, [⟨ConsoleStream.stderr, "FATAL"⟩])) := by
  cases path <;> cases name <;>
    simp [new, set_cli_state_eq, Messenger.info, Messenger.success, echoPlain, echoStyled]

/-- C7 (counterexample): in the non-early run of `new` at the default name,
the only success-styled console line is the documentation pointer, and it
does not contain the project name; the line that names the project is the
unstyled informational one. -/
theorem new_success_styled_line_lacks_name :
    (new "/work" (some "/work") (some "my-project") "Apache-2.0" false 0 0 []).map
        (fun r => r.console.filter (fun l => l.fg == some messenger.success_color)) =
      some [⟨ConsoleStream.stdout, guideMsg, some "green", true⟩] ∧
    mentions "my-project" guideMsg = false ∧
    mentions "my-project" "Done! Created a new repository under my-project" = true :=
  ⟨rfl, rfl, rfl⟩

/-- C7 (amended): when `new` does not take the early exit it emits exactly two
lines: first an unstyled informational line that contains the project name,
then a bold success-colored line carrying the documentation pointer. -/
theorem new_emits_name_info_and_doc_success (cwd p nm license_id : String)
    (dry_run : Bool) (v q : Nat) (sinks : List Sink) :
    (new cwd (some p) (some nm) license_id dry_run v q sinks).map CmdResult.console =
      some [⟨ConsoleStream.stdout, "Done! Created a new repository under " ++ nm,
             none, false⟩,
            ⟨ConsoleStream.stdout, guideMsg, some typerColorsGreen, true⟩] ∧
    mentions nm ("Done! Created a new repository under " ++ nm) = true := by
  constructor
  · unfold new
    rw [set_cli_state_eq]
    rfl
  · exact mentions_append_self "Done! Created a new repository under " nm

end Cicd
